import Mathlib

/-!
Verification of the Pennsieve client wrapper
(src/sparc/client/services/pennsieve.py).

The Python code is shallowly embedded: JSON-like Python values become the
inductive type Py, fallible Python expressions become Except PyErr, and the
two side effects of download_file (the POST to the packaging service and the
local file write) are returned explicitly in an Effects record.  The network
delegate (the Pennsieve client object) and the requests library are modelled
as function parameters: the delegate maps a GET request to the parsed JSON it
returns, and the packaging service maps a POST request to the response body.
-/

namespace SparcClient

/-- JSON-like Python values as they appear in the wrapper: None, booleans,
integers, strings, lists and string-keyed dicts. -/
inductive Py where
  | none
  | bool (b : Bool)
  | int (n : Int)
  | str (s : String)
  | list (xs : List Py)
  | dict (kvs : List (String × Py))
deriving Inhabited

/-- Python exceptions the embedded code can raise.  The assertionError
constructor carries the assertion message; the spec names the download_file
assertion MixedDatasetBatchError. -/
inductive PyErr where
  | keyError
  | typeError
  | assertionError (msg : String)
deriving DecidableEq, Repr

mutual
/-- Python structural equality on embedded values (the == relation used by
set membership). -/
def pyEq : Py → Py → Bool
  | .none, .none => true
  | .bool a, .bool b => a == b
  | .int a, .int b => a == b
  | .str a, .str b => a == b
  | .list xs, .list ys => pyEqList xs ys
  | .dict xs, .dict ys => pyEqDict xs ys
  | _, _ => false
/-- Elementwise pyEq on lists. -/
def pyEqList : List Py → List Py → Bool
  | [], [] => true
  | x :: xs, y :: ys => pyEq x y && pyEqList xs ys
  | _, _ => false
/-- Elementwise pyEq on dict entries. -/
def pyEqDict : List (String × Py) → List (String × Py) → Bool
  | [], [] => true
  | (k, v) :: xs, (l, w) :: ys => k == l && pyEq v w && pyEqDict xs ys
  | _, _ => false
end

/-- Python dict lookup d.get(k): some v when the key is present (first
occurrence), none when absent. -/
def dictGet (kvs : List (String × Py)) (k : String) : Option Py :=
  (kvs.find? (fun kv => kv.1 == k)).map (fun kv => kv.2)

/-- Python subscripting x[k]: KeyError when the key is absent, TypeError
when x is not a dict. -/
def pyIndex (x : Py) (k : String) : Except PyErr Py :=
  match x with
  | .dict kvs =>
    match dictGet kvs k with
    | Option.some v => .ok v
    | Option.none => .error .keyError
  | _ => .error .typeError

/-- A list comprehension or map whose body can raise: stops at the first
raising element, as Python does. -/
def mapExcept (f : Py → Except PyErr α) : List Py → Except PyErr (List α)
  | [] => .ok []
  | x :: xs =>
    match f x with
    | .error e => .error e
    | .ok y =>
      match mapExcept f xs with
      | .error e => .error e
      | .ok ys => .ok (y :: ys)

/-- Python str.split on a single separator character, over the char list:
splitting the empty string yields one empty group; each separator ends the
current group. -/
def splitChars (sep : Char) : List Char → List (List Char)
  | [] => [[]]
  | c :: cs =>
    match splitChars sep cs with
    | [] => [[]]
    | g :: gs => if c = sep then [] :: g :: gs else (c :: g) :: gs

/-- Python u.split(sep), as a list of strings. -/
def pySplit (u : String) (sep : Char) : List String :=
  (splitChars sep u.data).map String.mk

/-- Python sep.join(xs). -/
def pyJoin (sep : String) : List String → String
  | [] => ""
  | [x] => x
  | x :: y :: xs => x ++ sep ++ pyJoin sep (y :: xs)

/-- The uri truncation at pennsieve.py:247 and 303: split the uri on the
slash character, discard the first five segments, rejoin with slashes. -/
def relPathOfUri (u : String) : String :=
  pyJoin "/" ((pySplit u '/').drop 5)

/-- Body of the lambda at pennsieve.py:247: subscripting x with key uri can
raise KeyError, and calling split on a non-string raises TypeError. -/
def uriToPath (x : Py) : Except PyErr String :=
  match pyIndex x "uri" with
  | .ok (.str u) => .ok (relPathOfUri u)
  | .ok _ => .error .typeError
  | .error e => .error e

/-- A GET request issued through the transport delegate. -/
structure GetRequest where
  url : String
  headers : List (String × String)
  params : List (String × Py)

/-- Headers attribute default_headers (pennsieve.py:53-56). -/
def default_headers : List (String × String) :=
  [("Content-Type", "application/json"),
   ("Accept", "application/json; charset=utf-8")]

/-- Attribute host_api (pennsieve.py:58). -/
def host_api : String := "https://api.pennsieve.io"

/-- The params dict of list_datasets (pennsieve.py:164-174). -/
def listDatasetsParams (limit offset query organization organization_id
    tags embargo order_by order_direction : Py) : List (String × Py) :=
  [("limit", limit),
   ("offset", offset),
   ("query", query),
   ("organization", organization),
   ("organizationId", organization_id),
   ("tags", tags),
   ("embargo", embargo),
   ("orderBy", order_by),
   ("orderDirection", order_direction)]

/-- The params dict of list_files (pennsieve.py:211-219). -/
def listFilesParams (limit offset file_type query organization
    organization_id dataset_id : Py) : List (String × Py) :=
  [("limit", limit),
   ("offset", offset),
   ("fileType", file_type),
   ("query", query),
   ("organization", organization),
   ("organizationId", organization_id),
   ("datasetId", dataset_id)]

/-- The params dict of list_records (pennsieve.py:270-276). -/
def listRecordsParams (limit offset model organization dataset_id : Py) :
    List (String × Py) :=
  [("limit", limit),
   ("offset", offset),
   ("model", model),
   ("organization", organization),
   ("datasetId", dataset_id)]

/-- The GET request list_datasets hands to the delegate
(pennsieve.py:161-175). -/
def list_datasets_request (limit offset query organization organization_id
    tags embargo order_by order_direction : Py) : GetRequest :=
  { url := host_api ++ "/discover/search/datasets"
    headers := default_headers
    params := listDatasetsParams limit offset query organization
      organization_id tags embargo order_by order_direction }

/-- The GET request list_files hands to the delegate (pennsieve.py:208-219). -/
def list_files_request (limit offset file_type query organization
    organization_id dataset_id : Py) : GetRequest :=
  { url := host_api ++ "/discover/search/files"
    headers := default_headers
    params := listFilesParams limit offset file_type query organization
      organization_id dataset_id }

/-- The GET request list_records hands to the delegate
(pennsieve.py:267-277). -/
def list_records_request (limit offset model organization dataset_id : Py) :
    GetRequest :=
  { url := host_api ++ "/discover/search/records"
    headers := default_headers
    params := listRecordsParams limit offset model organization dataset_id }

/-- Operation list_datasets (pennsieve.py:115-175): returns the parsed JSON
body of the delegate response unmodified. -/
def list_datasets (deleg : GetRequest → Py) (limit offset query organization
    organization_id tags embargo order_by order_direction : Py) : Py :=
  deleg (list_datasets_request limit offset query organization
    organization_id tags embargo order_by order_direction)

/-- Operation list_files (pennsieve.py:177-220): issues the GET and extracts
the value under key files from the response with Python subscripting. -/
def list_files (deleg : GetRequest → Py) (limit offset file_type query
    organization organization_id dataset_id : Py) : Except PyErr Py :=
  pyIndex (deleg (list_files_request limit offset file_type query
    organization organization_id dataset_id)) "files"

/-- Operation list_records (pennsieve.py:249-277): returns the parsed JSON
body of the delegate response unmodified. -/
def list_records (deleg : GetRequest → Py) (limit offset model organization
    dataset_id : Py) : Py :=
  deleg (list_records_request limit offset model organization dataset_id)

/-- Operation list_filenames (pennsieve.py:222-247): calls list_files with
identical parameters, then maps the uri-truncation lambda over the result.
Iterating a list visits its elements; iterating a dict visits its keys
(strings, on which the uri subscript raises TypeError); iterating a string
visits its one-character substrings (same TypeError unless empty); anything
else is not iterable and raises TypeError at once. -/
def list_filenames (deleg : GetRequest → Py) (limit offset file_type query
    organization organization_id dataset_id : Py) :
    Except PyErr (List String) :=
  match list_files deleg limit offset file_type query organization
      organization_id dataset_id with
  | .error e => .error e
  | .ok (.list xs) => mapExcept uriToPath xs
  | .ok (.dict []) => .ok []
  | .ok (.dict (_ :: _)) => .error .typeError
  | .ok (.str s) => if s.isEmpty then .ok [] else .error .typeError
  | .ok _ => .error .typeError

/-- Profile handling in the PennsieveService constructor (pennsieve.py:61-74).
The call config.get with key pennsieve_profile_name tolerates a missing key,
but the following log statement concatenates the profile name to a str and
raises TypeError when it is None (key absent or explicitly null) or any other
non-string; calling get on a non-dict config raises as well (AttributeError,
modelled as typeError).  With config equal to None the else branch logs a
constant string and leaves the profile name None. -/
def init_profile (config : Option Py) : Except PyErr (Option String) :=
  match config with
  | Option.some (.dict kvs) =>
    match dictGet kvs "pennsieve_profile_name" with
    | Option.some (.str p) => .ok (Option.some p)
    | Option.some _ => .error .typeError
    | Option.none => .error .typeError
  | Option.some _ => .error .typeError
  | Option.none => .ok Option.none

/-- The shape of the connect call issued to the delegate. -/
inductive ConnectCall where
  | withProfile (name : String)
  | profileless
deriving DecidableEq, Repr

/-- The wrapper state that the connect method reads: the stored profile name
and the delegate object held in the Pennsieve attribute. -/
structure ServiceState (δ : Type) where
  profile_name : Option String
  pennsieve : δ

/-- Method connect (pennsieve.py:75-83): calls the delegate connect with the
profile name when one is set, the profile-less connect otherwise, and returns
the delegate object. -/
def connect {δ : Type} (s : ServiceState δ) : ConnectCall × δ :=
  match s.profile_name with
  | Option.some p => (ConnectCall.withProfile p, s.pennsieve)
  | Option.none => (ConnectCall.profileless, s.pennsieve)

/-- A POST request issued directly through the requests library. -/
structure PostRequest where
  url : String
  body : Py
  headers : List (String × String)

/-- The observable side effects of download_file: the POST requests issued
and the (filename, content) pairs written to local storage. -/
structure Effects where
  posts : List PostRequest
  writes : List (String × String)

/-- No side effects. -/
def noEffects : Effects := { posts := [], writes := [] }

/-- Input normalization at pennsieve.py:296: a dict is wrapped in a
one-element list; a list is kept; a string would be iterated by the following
comprehensions as one-character substrings; anything else is not iterable and
raises TypeError there. -/
def normalizeFileList : Py → Except PyErr (List Py)
  | .dict kvs => .ok [.dict kvs]
  | .list xs => .ok xs
  | .str s => .ok (s.data.map (fun c => Py.str (String.mk [c])))
  | _ => .error .typeError

/-- The tuple built at pennsieve.py:299 from one descriptor: subscripts with
keys datasetId and datasetVersion, left to right. -/
def pairOf (x : Py) : Except PyErr (Py × Py) :=
  match pyIndex x "datasetId" with
  | .error e => .error e
  | .ok d =>
    match pyIndex x "datasetVersion" with
    | .error e => .error e
    | .ok v => .ok (d, v)

/-- One element of paths (pennsieve.py:302-304): the descriptor dict itself
when it has no uri (or a null one), otherwise the five-segment truncation of
the uri.  Calling split on a non-string uri raises TypeError; calling get on
a non-dict raises (AttributeError, modelled as typeError). -/
def pathOf (x : Py) : Except PyErr Py :=
  match x with
  | .dict kvs =>
    match dictGet kvs "uri" with
    | Option.none => .ok (.dict kvs)
    | Option.some Py.none => .ok (.dict kvs)
    | Option.some (.str u) => .ok (.str (relPathOfUri u))
    | Option.some _ => .error .typeError
  | _ => .error .typeError

/-- Python equality on (datasetId, datasetVersion) tuples. -/
def pairBeq (p q : Py × Py) : Bool :=
  pyEq p.1 q.1 && pyEq p.2 q.2

/-- The distinct members of a list of tuples, first occurrences kept: models
the set built at pennsieve.py:299, whose length is tested by the assertion
and whose single member (when the assertion passes) is taken by next, iter.
A Python set iterates in unspecified order, but the code only ever reads the
set when the assertion has established that it is a singleton. -/
def dedupPairs : List (Py × Py) → List (Py × Py)
  | [] => []
  | p :: ps => p :: (dedupPairs ps).filter (fun q => !(pairBeq p q))

/-- The assertion message at pennsieve.py:305-307. -/
def mixedDatasetMsg : String :=
  "Downloading files from multiple datasets or dataset versions is not supported."

/-- Python str.rfind for a single character: highest index, or -1 when
absent. -/
def rfind (cs : List Char) (c : Char) : Int :=
  match cs.reverse.findIdx? (fun a => a == c) with
  | Option.some i => (cs.length : Int) - 1 - (i : Int)
  | Option.none => -1

/-- Function os.path.splitext on a string, posixpath semantics: split at the
rightmost dot unless it lies in the leading-dots run of the final path
component. -/
def splitextStr (p : String) : String × String :=
  let cs := p.data
  let sepIndex := rfind cs '/'
  let dotIndex := rfind cs '.'
  if sepIndex < dotIndex ∧
      ((cs.drop (sepIndex + 1).toNat).take (dotIndex - sepIndex - 1).toNat).any
        (fun a => a != '.') then
    (String.mk (cs.take dotIndex.toNat), String.mk (cs.drop dotIndex.toNat))
  else (p, "")

/-- Call os.path.splitext as at pennsieve.py:326: defined on strings
(path-like values); on the descriptor dict actually passed there it raises
TypeError. -/
def os_path_splitext : Py → Except PyErr (String × String)
  | .str s => .ok (splitextStr s)
  | _ => .error .typeError

/-- The multi-file branch of the output-name expression at pennsieve.py:326,
os.path.splitext of the first descriptor followed by concatenating the gz
suffix: splitext raises TypeError on the dict it is given, and even on a
string it returns a tuple, and tuple-plus-string raises TypeError as well. -/
def splitext_plus_gz (x : Py) : Except PyErr String :=
  match os_path_splitext x with
  | .error e => .error e
  | .ok _ => .error .typeError

/-- The output name computed at pennsieve.py:324-327 when output_name is
None: the name field of the single descriptor when paths has exactly one
element (a non-string name makes the following open call raise TypeError),
the gz-derivation expression otherwise. -/
def defaultOutputName (files : List Py) (paths : List Py) :
    Except PyErr String :=
  if paths.length = 1 then
    match pyIndex files.head! "name" with
    | .ok (.str n) => .ok n
    | .ok _ => .error .typeError
    | .error e => .error e
  else
    splitext_plus_gz files.head!

/-- Method download_file (pennsieve.py:279-330) with its effects explicit:
net models requests.post, mapping the request to the response body; the
Effects record lists the POSTs issued and the files written; the Except value
is the returned response body, or the exception raised.  The sequencing
follows the source: normalize the input, build the set of (datasetId,
datasetVersion) tuples, build paths, assert the set is a singleton, POST to
the zipit endpoint, compute the output name, write the body to it. -/
def download_file (net : PostRequest → String) (file_list : Py)
    (output_name : Option String) : Effects × Except PyErr String :=
  match normalizeFileList file_list with
  | .error e => (noEffects, .error e)
  | .ok files =>
    match mapExcept pairOf files with
    | .error e => (noEffects, .error e)
    | .ok pairs =>
      match mapExcept pathOf files with
      | .error e => (noEffects, .error e)
      | .ok paths =>
        match dedupPairs pairs with
        | [] => (noEffects, .error (.assertionError mixedDatasetMsg))
        | _ :: _ :: _ => (noEffects, .error (.assertionError mixedDatasetMsg))
        | [(dsId, dsVer)] =>
          let body := Py.dict [("data", Py.dict
            [("paths", Py.list paths), ("datasetId", dsId),
             ("version", dsVer)])]
          let req : PostRequest :=
            { url := "https://api.pennsieve.io/zipit/discover"
              body := body
              headers := [("content-type", "application/json")] }
          let content := net req
          match (match output_name with
                 | Option.some n => Except.ok n
                 | Option.none => defaultOutputName files paths) with
          | .error e => ({ posts := [req], writes := [] }, .error e)
          | .ok name =>
            ({ posts := [req], writes := [(name, content)] }, .ok content)

/-- Transmitted list_datasets parameters for a call with no arguments: every
parameter at its Python default (limit 10, offset 0, all filters None). -/
def list_datasets_params_default : List (String × Py) :=
  listDatasetsParams (.int 10) (.int 0) .none .none .none .none .none
    .none .none

/-- Transmitted list_datasets parameters for a call passing only limit and
offset explicitly (at the default values), leaving every filter omitted. -/
def list_datasets_params_limit_offset : List (String × Py) :=
  listDatasetsParams (.int 10) (.int 0) .none .none .none .none .none
    .none .none

/-- Transmitted list_files parameters for a call with no arguments. -/
def list_files_params_default : List (String × Py) :=
  listFilesParams (.int 10) (.int 0) .none .none .none .none .none

/-- Transmitted list_files parameters for a call passing only limit and
offset explicitly, leaving every filter omitted. -/
def list_files_params_limit_offset : List (String × Py) :=
  listFilesParams (.int 10) (.int 0) .none .none .none .none .none

/-- Transmitted list_records parameters for a call with no arguments. -/
def list_records_params_default : List (String × Py) :=
  listRecordsParams (.int 10) (.int 0) .none .none .none

/-- Transmitted list_records parameters for a call passing only limit and
offset explicitly, leaving every filter omitted. -/
def list_records_params_limit_offset : List (String × Py) :=
  listRecordsParams (.int 10) (.int 0) .none .none .none

/-- Concrete descriptor: dataset 7 version 1. -/
def c1file1 : Py :=
  .dict [("datasetId", .int 7), ("datasetVersion", .int 1),
   ("name", .str "a.txt")]

/-- Concrete descriptor: dataset 7 version 2 (differs from c1file1 only in
the version). -/
def c1file2 : Py :=
  .dict [("datasetId", .int 7), ("datasetVersion", .int 2),
   ("name", .str "b.txt")]

/-- Concrete descriptor for the multi-file download batch: dataset 1
version 3, no uri. -/
def c3file1 : Py :=
  .dict [("datasetId", .int 1), ("datasetVersion", .int 3),
   ("name", .str "a.txt")]

/-- Second concrete descriptor of the same dataset and version. -/
def c3file2 : Py :=
  .dict [("datasetId", .int 1), ("datasetVersion", .int 3),
   ("name", .str "b.txt")]

/-- The packaging request download_file issues for the batch
[c3file1, c3file2]: descriptors without a uri contribute themselves as path
elements. -/
def c3req : PostRequest :=
  { url := "https://api.pennsieve.io/zipit/discover"
    body := Py.dict [("data", Py.dict
      [("paths", Py.list [c3file1, c3file2]), ("datasetId", .int 1),
       ("version", .int 3)])]
    headers := [("content-type", "application/json")] }

/-- Delegate double whose response carries one file with a two-segment
uri. -/
def c2deleg : GetRequest → Py := fun _ =>
  .dict [("files", .list [.dict [("uri", .str "a/b")]]),
   ("totalCount", .int 1)]

/-- Delegate double whose response carries one file with the five-segment
example uri given in the spec. -/
def c4deleg : GetRequest → Py := fun _ =>
  .dict [("files", .list [.dict [("uri",
    .str "proto://host/bucket/dataset/version/sub/path/file.csv")]]),
   ("totalCount", .int 1)]

/-- Delegate double returning a response body with a files array and
wrapping metadata. -/
def c6deleg : GetRequest → Py := fun _ =>
  .dict [("files", .list [.dict [("name", .str "f.txt")]]),
   ("totalCount", .int 1)]

/-- Delegate double returning two files with well-formed uris. -/
def c10deleg : GetRequest → Py := fun _ =>
  .dict [("files", .list
    [.dict [("uri", .str "s3://bucket/11/2/files/a.txt")],
     .dict [("uri", .str "s3://bucket/11/2/files/sub/b.txt")]])]

mutual
/-- Boolean Python equality agrees with propositional equality on values. -/
theorem pyEq_iff : ∀ (x y : Py), pyEq x y = true ↔ x = y
  | .none, y => by cases y <;> simp [pyEq]
  | .bool a, y => by cases y <;> simp [pyEq]
  | .int a, y => by cases y <;> simp [pyEq]
  | .str a, y => by cases y <;> simp [pyEq]
  | .list xs, y => by
      cases y <;> simp [pyEq]
      exact pyEqList_iff xs _
  | .dict xs, y => by
      cases y <;> simp [pyEq]
      exact pyEqDict_iff xs _
/-- Boolean Python equality agrees with propositional equality on lists. -/
theorem pyEqList_iff : ∀ (xs ys : List Py), pyEqList xs ys = true ↔ xs = ys
  | [], ys => by cases ys <;> simp [pyEqList]
  | x :: xs, ys => by
      cases ys with
      | nil => simp [pyEqList]
      | cons y ys =>
          simp [pyEqList, Bool.and_eq_true, pyEq_iff x y, pyEqList_iff xs ys]
/-- Boolean Python equality agrees with propositional equality on dict
entry lists. -/
theorem pyEqDict_iff :
    ∀ (xs ys : List (String × Py)), pyEqDict xs ys = true ↔ xs = ys
  | [], ys => by cases ys <;> simp [pyEqDict]
  | (k, v) :: xs, ys => by
      cases ys with
      | nil => simp [pyEqDict]
      | cons p ys =>
          obtain ⟨l, w⟩ := p
          simp [pyEqDict, Bool.and_eq_true, pyEq_iff v w, pyEqDict_iff xs ys]
end

/-- Boolean tuple equality agrees with propositional equality. -/
theorem pairBeq_iff (p q : Py × Py) : pairBeq p q = true ↔ p = q := by
  obtain ⟨a, b⟩ := p
  obtain ⟨c, d⟩ := q
  simp [pairBeq, pyEq_iff, Prod.ext_iff]

/-- Deduplication preserves the members. -/
theorem mem_dedupPairs :
    ∀ (l : List (Py × Py)) (x : Py × Py), x ∈ dedupPairs l ↔ x ∈ l
  | [], x => Iff.rfl
  | p :: ps, x => by
      simp only [dedupPairs, List.mem_cons, List.mem_filter,
        mem_dedupPairs ps x]
      constructor
      · rintro (h | ⟨h, _⟩)
        · exact Or.inl h
        · exact Or.inr h
      · rintro (h | h)
        · exact Or.inl h
        · by_cases hpx : pairBeq p x = true
          · exact Or.inl (((pairBeq_iff p x).mp hpx).symm)
          · exact Or.inr ⟨h, by simp [hpx]⟩

/-- When the set of tuples is a singleton, every member of the list is that
tuple. -/
theorem dedupPairs_singleton {l : List (Py × Py)} {r : Py × Py}
    (h : dedupPairs l = [r]) : ∀ x ∈ l, x = r := by
  intro x hx
  have hm : x ∈ dedupPairs l := (mem_dedupPairs l x).mpr hx
  rw [h] at hm
  simpa using hm

/-- A successful fallible map preserves the length. -/
theorem mapExcept_ok_length {α : Type} {f : Py → Except PyErr α} :
    ∀ (l : List Py) (r : List α), mapExcept f l = .ok r → r.length = l.length
  | [], r, h => by
      simp only [mapExcept] at h
      cases h
      rfl
  | x :: xs, r, h => by
      simp only [mapExcept] at h
      cases hf : f x with
      | error e => rw [hf] at h; cases h
      | ok y =>
        rw [hf] at h
        cases hm : mapExcept f xs with
        | error e => rw [hm] at h; cases h
        | ok ys =>
          rw [hm] at h
          cases h
          simp [mapExcept_ok_length xs ys hm]

/-- A successful fallible map sends the element at each position to the
result at the same position. -/
theorem mapExcept_ok_get {α : Type} {f : Py → Except PyErr α} :
    ∀ (l : List Py) (r : List α), mapExcept f l = .ok r →
      ∀ (i : Nat) (hi : i < l.length) (hj : i < r.length),
        f (l.get ⟨i, hi⟩) = .ok (r.get ⟨i, hj⟩)
  | [], r, h, i, hi, hj => absurd hi (by simp)
  | x :: xs, r, h, i, hi, hj => by
      simp only [mapExcept] at h
      cases hf : f x with
      | error e => rw [hf] at h; cases h
      | ok y =>
        rw [hf] at h
        cases hm : mapExcept f xs with
        | error e => rw [hm] at h; cases h
        | ok ys =>
          rw [hm] at h
          cases h
          cases i with
          | zero => simpa using hf
          | succ n =>
              simpa using mapExcept_ok_get xs ys hm n (by simpa using hi)
                (by simpa using hj)

/-- C1: a download_file call whose file_list contains two or more
descriptors with differing (datasetId, datasetVersion) pairs fails with the
mixed-dataset assertion (the spec name for it is MixedDatasetBatchError),
issues zero network calls and writes no local file. -/
theorem download_file_mixed_batch_rejected (net : PostRequest → String)
    (file_list : Py) (output_name : Option String) (files : List Py)
    (pairs : List (Py × Py)) (paths : List Py)
    (hn : normalizeFileList file_list = .ok files)
    (hpr : mapExcept pairOf files = .ok pairs)
    (hpa : mapExcept pathOf files = .ok paths)
    (p q : Py × Py) (hp : p ∈ pairs) (hq : q ∈ pairs) (hne : p ≠ q) :
    download_file net file_list output_name =
      (noEffects, Except.error (.assertionError mixedDatasetMsg)) := by
  simp only [download_file, hn, hpr, hpa]
  cases hd : dedupPairs pairs with
  | nil => rfl
  | cons r rest =>
    cases rest with
    | nil =>
      exact absurd ((dedupPairs_singleton hd p hp).trans
        (dedupPairs_singleton hd q hq).symm) hne
    | cons r2 rest2 => rfl

/-- Witness for C1: a concrete two-descriptor batch whose versions differ is
rejected with the assertion message and produces no effects. -/
theorem download_file_mixed_batch_rejected_witness :
    download_file (fun _ => "") (.list [c1file1, c1file2]) Option.none =
      (noEffects, Except.error (.assertionError mixedDatasetMsg)) :=
  download_file_mixed_batch_rejected (fun _ => "")
    (.list [c1file1, c1file2]) Option.none [c1file1, c1file2]
    [(.int 7, .int 1), (.int 7, .int 2)] [c1file1, c1file2]
    rfl rfl rfl (.int 7, .int 1) (.int 7, .int 2)
    (by simp) (by simp) (by simp)

/-- C2 counterexample: a two-segment uri is processed without any raised
error: list_filenames silently returns the empty relative path, and the
download_file path derivation silently yields an empty path element. -/
theorem c2_short_uri_cex :
    list_filenames c2deleg (.int 10) (.int 0) .none .none .none .none
        .none = Except.ok [""] ∧
    pathOf (.dict [("uri", .str "a/b")]) = Except.ok (.str "") :=
  ⟨rfl, rfl⟩

/-- C2 amended: for every uri with fewer than five slash-separated segments,
path derivation raises no error and silently produces the empty path, in
both the list_filenames lambda and the download_file paths comprehension. -/
theorem short_uri_yields_empty_path (u : String)
    (h : (pySplit u '/').length < 5) :
    uriToPath (.dict [("uri", .str u)]) = Except.ok "" ∧
    pathOf (.dict [("uri", .str u)]) = Except.ok (.str "") := by
  have hrel : relPathOfUri u = "" := by
    unfold relPathOfUri
    rw [List.drop_eq_nil_of_le (Nat.le_of_lt h)]
    rfl
  have hidx : pyIndex (Py.dict [("uri", Py.str u)]) "uri" =
      .ok (.str u) := rfl
  have hget : dictGet [("uri", Py.str u)] "uri" =
      Option.some (.str u) := rfl
  constructor
  · simp [uriToPath, hidx, hrel]
  · simp [pathOf, hget, hrel]

/-- Witness for the amended C2 at the concrete uri a/b. -/
theorem short_uri_yields_empty_path_witness :
    uriToPath (.dict [("uri", .str "a/b")]) = Except.ok "" ∧
    pathOf (.dict [("uri", .str "a/b")]) = Except.ok (.str "") :=
  short_uri_yields_empty_path "a/b" (by decide)

/-- C3 (code bug): on a valid two-file single-dataset batch with no
output_name, download_file raises TypeError while computing the output name
(os.path.splitext is applied to the first descriptor dict, and even on a
string the tuple-plus-gz concatenation would raise), after the POST and
before any file write: no gz-named file is ever produced. -/
theorem multi_file_default_name_type_error (net : PostRequest → String) :
    download_file net (.list [c3file1, c3file2]) Option.none =
      ({ posts := [c3req], writes := [] }, Except.error .typeError) := rfl

/-- C4 counterexample: on the five-segment example uri of the spec,
list_filenames does not return sub/path/file.csv. -/
theorem c4_example_uri_cex :
    list_filenames c4deleg (.int 10) (.int 0) .none .none .none .none
        .none ≠ Except.ok ["sub/path/file.csv"] := by
  have h2 : list_filenames c4deleg (.int 10) (.int 0) .none .none .none
      .none .none = Except.ok ["version/sub/path/file.csv"] := rfl
  rw [h2]
  intro h
  simp at h

/-- C4 amended: on the example uri the five discarded segments are the
protocol part, the empty segment contributed by the double slash, the host,
the bucket and the dataset, so list_filenames returns
version/sub/path/file.csv. -/
theorem example_uri_relpath :
    list_filenames c4deleg (.int 10) (.int 0) .none .none .none .none
        .none = Except.ok ["version/sub/path/file.csv"] := rfl

/-- C5 counterexample: constructing with a configuration mapping that lacks
the profile-name field does not succeed with an undefined profile: the
constructor raises TypeError while concatenating the None profile into the
log message. -/
theorem c5_config_missing_key_cex :
    init_profile (Option.some (.dict [])) = Except.error .typeError ∧
    init_profile (Option.some (.dict [])) ≠ Except.ok Option.none :=
  ⟨rfl, fun h => Except.noConfusion h⟩

/-- C5 amended: constructing with no configuration succeeds and leaves the
active profile None, but constructing with a configuration mapping lacking
pennsieve_profile_name raises TypeError instead of succeeding. -/
theorem config_profile_key_behavior (kvs : List (String × Py))
    (h : dictGet kvs "pennsieve_profile_name" = Option.none) :
    init_profile Option.none = Except.ok Option.none ∧
    init_profile (Option.some (.dict kvs)) = Except.error .typeError := by
  refine ⟨rfl, ?_⟩
  simp [init_profile, h]

/-- Witness for the amended C5 at the empty configuration mapping. -/
theorem config_profile_key_behavior_witness :
    init_profile Option.none = Except.ok Option.none ∧
    init_profile (Option.some (.dict [])) = Except.error .typeError :=
  config_profile_key_behavior [] rfl

/-- C6: a successful list_files call returns exactly the files array
extracted from the delegate JSON response body: a sequence, never the
wrapping mapping that contains the files key. -/
theorem list_files_returns_files_array (deleg : GetRequest → Py)
    (limit offset file_type query organization organization_id
      dataset_id : Py)
    (kvs : List (String × Py)) (fs : List Py)
    (hresp : deleg (list_files_request limit offset file_type query
        organization organization_id dataset_id) = .dict kvs)
    (hfiles : dictGet kvs "files" = Option.some (.list fs)) :
    list_files deleg limit offset file_type query organization
        organization_id dataset_id = Except.ok (.list fs) ∧
    Py.list fs ≠ Py.dict kvs := by
  constructor
  · simp [list_files, pyIndex, hresp, hfiles]
  · intro h
    cases h

/-- Witness for C6 at a concrete delegate double. -/
theorem list_files_returns_files_array_witness :
    list_files c6deleg (.int 10) (.int 0) .none .none .none .none .none =
      Except.ok (.list [.dict [("name", .str "f.txt")]]) ∧
    Py.list [.dict [("name", .str "f.txt")]] ≠
      Py.dict [("files", .list [.dict [("name", .str "f.txt")]]),
        ("totalCount", .int 1)] :=
  list_files_returns_files_array c6deleg (.int 10) (.int 0) .none .none
    .none .none .none
    [("files", .list [.dict [("name", .str "f.txt")]]),
     ("totalCount", .int 1)]
    [.dict [("name", .str "f.txt")]] rfl rfl

/-- C7: the search operations build parameter mappings with exactly the
camelCase wire keys; omitted filters are transmitted as None, never the
literal string None; and the mapping for a call with every filter absent
equals the mapping for a call passing only limit and offset explicitly. -/
theorem search_params_wire_format :
    (∀ limit offset query organization organization_id tags embargo
        order_by order_direction : Py,
      (listDatasetsParams limit offset query organization organization_id
          tags embargo order_by order_direction).map Prod.fst =
        ["limit", "offset", "query", "organization", "organizationId",
         "tags", "embargo", "orderBy", "orderDirection"]) ∧
    (∀ limit offset file_type query organization organization_id
        dataset_id : Py,
      (listFilesParams limit offset file_type query organization
          organization_id dataset_id).map Prod.fst =
        ["limit", "offset", "fileType", "query", "organization",
         "organizationId", "datasetId"]) ∧
    (∀ limit offset model organization dataset_id : Py,
      (listRecordsParams limit offset model organization
          dataset_id).map Prod.fst =
        ["limit", "offset", "model", "organization", "datasetId"]) ∧
    (list_datasets_params_default.all
        (fun kv => !(pyEq kv.2 (.str "None"))) = true) ∧
    (list_files_params_default.all
        (fun kv => !(pyEq kv.2 (.str "None"))) = true) ∧
    (list_records_params_default.all
        (fun kv => !(pyEq kv.2 (.str "None"))) = true) ∧
    list_datasets_params_default = list_datasets_params_limit_offset ∧
    list_files_params_default = list_files_params_limit_offset ∧
    list_records_params_default = list_records_params_limit_offset :=
  ⟨fun _ _ _ _ _ _ _ _ _ => rfl, fun _ _ _ _ _ _ _ => rfl,
   fun _ _ _ _ _ => rfl, rfl, rfl, rfl, rfl, rfl, rfl⟩

/-- C8: connect invokes the delegate connect with the stored profile name
when one is set and the profile-less connect otherwise, and in both cases
returns the delegate handle. -/
theorem connect_uses_profile {δ : Type} (s : ServiceState δ) :
    (∀ p, s.profile_name = Option.some p →
      connect s = (ConnectCall.withProfile p, s.pennsieve)) ∧
    (s.profile_name = Option.none →
      connect s = (ConnectCall.profileless, s.pennsieve)) := by
  constructor
  · intro p hp
    simp [connect, hp]
  · intro hp
    simp [connect, hp]

/-- Witness for C8 at two concrete states. -/
theorem connect_uses_profile_witness :
    connect { profile_name := Option.some "prof", pennsieve := (0 : Nat) } =
      (ConnectCall.withProfile "prof", (0 : Nat)) ∧
    connect { profile_name := Option.none, pennsieve := (1 : Nat) } =
      (ConnectCall.profileless, (1 : Nat)) :=
  ⟨(connect_uses_profile _).1 "prof" rfl, (connect_uses_profile _).2 rfl⟩

/-- C9: download_file on an empty file_list fails the same singleton check
on the set of (datasetId, datasetVersion) pairs as a mixed batch (the set is
empty, not of size one), with the same assertion message, before any network
call or file write. -/
theorem download_file_empty_batch_rejected (net : PostRequest → String)
    (output_name : Option String) :
    download_file net (.list []) output_name =
      (noEffects, Except.error (.assertionError mixedDatasetMsg)) := rfl

/-- C10: list_filenames is the per-element uri derivation mapped over the
list_files result obtained with identical parameters: it preserves length
and order, entry i of the result is derived from entry i of the files, and
the derivation reads nothing but the uri field. -/
theorem list_filenames_maps_list_files (deleg : GetRequest → Py)
    (limit offset file_type query organization organization_id
      dataset_id : Py)
    (xs : List Py) (res : List String)
    (hfiles : list_files deleg limit offset file_type query organization
        organization_id dataset_id = Except.ok (.list xs))
    (hres : list_filenames deleg limit offset file_type query organization
        organization_id dataset_id = Except.ok res) :
    res.length = xs.length ∧
    (∀ (i : Nat) (hi : i < xs.length) (hj : i < res.length),
      uriToPath (xs.get ⟨i, hi⟩) = Except.ok (res.get ⟨i, hj⟩)) ∧
    (∀ x y : Py, pyIndex x "uri" = pyIndex y "uri" →
      uriToPath x = uriToPath y) := by
  have hm : mapExcept uriToPath xs = Except.ok res := by
    simp only [list_filenames, hfiles] at hres
    exact hres
  refine ⟨mapExcept_ok_length xs res hm, mapExcept_ok_get xs res hm,
    fun x y h => ?_⟩
  unfold uriToPath
  rw [h]

/-- Witness for C10 at a concrete delegate double with two files: the result
has one entry per file. -/
theorem list_filenames_maps_list_files_witness :
    (["files/a.txt", "files/sub/b.txt"] : List String).length =
      ([.dict [("uri", .str "s3://bucket/11/2/files/a.txt")],
        .dict [("uri", .str "s3://bucket/11/2/files/sub/b.txt")]] :
        List Py).length :=
  (list_filenames_maps_list_files c10deleg (.int 10) (.int 0) .none .none
    .none .none .none
    [.dict [("uri", .str "s3://bucket/11/2/files/a.txt")],
     .dict [("uri", .str "s3://bucket/11/2/files/sub/b.txt")]]
    ["files/a.txt", "files/sub/b.txt"] rfl rfl).1

end SparcClient
